import Mathlib

/-!
Verification development for the task-chain execution engine of an
n8n-based workflow orchestrator. The definitions below are a shallow
embedding of `packages/cli/src/workflows/task-chain-execution.service.ts`
(class `TaskChainExecutionService`). External collaborators (workflow
catalog, execution runtime, webhook transport, the runtime helper
`getDataLastExecutedNodeData`) are modelled as oracle functions collected
in an `Env` record; everything the service itself computes is translated
directly from the source.

Conventions used in the translation:
- TypeScript `undefined`/`null` become `Option`; JavaScript falsy tests on
  strings additionally treat `""` as absent where the source does
  (`!value`, `|| 'GET'`, `error.message || 'Unknown error'`).
- Thrown errors become `Except String`, carrying the error message that the
  service's `catch` block would capture (`error.message`).
- JSON payloads (`IDataObject`) are modelled as association lists of a
  small JSON value type; the service only moves payloads around, so the
  carrier only needs decidable equality.  (Numbers are carried as `Int`.)
-/

namespace TaskChain

/-- JSON values, the carrier for the fields of `IDataObject` payloads moved
between tasks. The service never inspects the values inside a payload (it
only builds, forwards and compares whole objects), so scalar values are a
sufficient carrier; nesting is not needed by any operation modelled here. -/
inductive Json where
  | null : Json
  | bool (b : Bool) : Json
  | num (n : Int) : Json
  | str (s : String) : Json
  deriving DecidableEq

/-- An `IDataObject`: a JSON object, keyed by string. -/
abbrev DataObject := List (String × Json)

/-- Binary attachment map of an execution item (`INodeExecutionData.binary`). -/
abbrev BinaryData := List (String × Json)

/-- One `INodeExecutionData` item: optional `json` object and optional `binary` map. -/
structure NodeExecutionData where
  json : Option DataObject := none
  binary : Option BinaryData := none
  deriving DecidableEq

/-- The parameters of a workflow node that the service inspects
(`webhookNode.parameters.path`, `webhookNode.parameters.httpMethod`). -/
structure NodeParameters where
  path : Option String := none
  httpMethod : Option String := none
  deriving DecidableEq

/-- A workflow node (`INode`): the service looks at `name`, `type` and `parameters`. -/
structure Node where
  name : String
  type : String
  parameters : Option NodeParameters := none
  deriving DecidableEq

/-- A `WorkflowEntity` as seen by the service: id, name, active flag and nodes. -/
structure WorkflowEntity where
  id : String
  name : String
  active : Bool
  nodes : Option (List Node) := none
  deriving DecidableEq

/-- `ITaskDataConnections`: the `main` key of one node run's output data. The
outer list is the branch list `Array<INodeExecutionData[] | null>`. -/
structure TaskConnections where
  main : Option (List (Option (List NodeExecutionData))) := none
  deriving DecidableEq

/-- One recorded run of a node (`ITaskData`), of which only `data` is read. -/
structure NodeRun where
  data : Option TaskConnections := none
  deriving DecidableEq

/-- `IRunExecutionData.resultData`: per-node run data (keyed by node name, in
insertion order), the `lastNodeExecuted` pointer and an optional top-level error. -/
structure RunError where
  message : Option String := none
  deriving DecidableEq

structure ResultData where
  runData : List (String × List NodeRun) := []
  lastNodeExecuted : Option String := none
  error : Option RunError := none
  deriving DecidableEq

structure RunExecutionData where
  resultData : ResultData
  deriving DecidableEq

/-- A completed run (`IRun`) as consumed by the service. -/
structure IRun where
  data : RunExecutionData
  deriving DecidableEq

/-- The four canonical I/O types (`TaskIoType`). -/
inductive TaskIoType where
  | JSON
  | png
  | noInput
  | noOutput
  deriving DecidableEq

/-- One planned step (`TaskPlanItem`). -/
structure TaskPlanItem where
  workflowId : String
  task : String
  input : Option String := none
  output : Option String := none
  deriving DecidableEq

/-- Task status state machine values (`TaskExecutionStatus`). -/
inductive TaskExecutionStatus where
  | pending
  | running
  | succeeded
  | failed
  deriving DecidableEq

/-- Per-task mutable record (`TaskExecutionResult`); the wall-clock timestamp
fields (`startedAt`, `finishedAt`) are not modelled. -/
structure TaskExecutionResult where
  index : Nat
  workflowId : String
  workflowName : Option String := none
  taskSummary : String
  status : TaskExecutionStatus
  inputType : TaskIoType
  outputType : TaskIoType
  executionId : Option String := none
  inputPayload : Option DataObject := none
  outputPayload : Option DataObject := none
  rawOutput : Option (List NodeExecutionData) := none
  error : Option String := none
  deriving DecidableEq

/-- Progress cursor of a chain result. -/
structure ChainProgress where
  currentTaskIndex : Nat
  totalTasks : Nat
  currentWorkflowId : Option String := none
  deriving DecidableEq

/-- The chain's final verdict (`TaskChainResult`). -/
structure TaskChainResult where
  success : Bool
  tasks : List TaskExecutionResult
  progress : ChainProgress
  failedTask : Option TaskExecutionResult := none
  error : Option String := none
  finalOutput : Option DataObject := none
  deriving DecidableEq

/-- Normalized per-workflow metadata (`WorkflowDescriptionMetadata`). -/
structure WorkflowDescriptionMetadata where
  inputType : Option TaskIoType := none
  outputType : Option TaskIoType := none
  workflowName : Option String := none
  deriving DecidableEq

/-- Raw fields of a stored workflow description, as returned by
`workflowService.getWorkflowDescriptions`. -/
structure DescriptionFields where
  inputType : Option String := none
  outputType : Option String := none
  workflowName : Option String := none
  deriving DecidableEq

/-- One record of `getWorkflowDescriptions`: a workflow id together with its
optional description object. -/
structure WorkflowDescriptionRecord where
  workflowId : String
  workflowDescription : Option DescriptionFields := none
  deriving DecidableEq

/-- Webhook exposure info computed by `getWebhookInfo`: path and upper-cased method. -/
structure WebhookInfo where
  path : String
  method : String
  deriving DecidableEq

/-- Behaviour of one `fetch` of a webhook URL (`executeViaWebhook`): the call
can throw (network error or body-parse error), return a non-2xx status, return
a JSON body (where `none` models the falsy parses `null`/`false`/`0`/`""`), or
return a non-JSON body with the given text. -/
inductive WebhookBehavior where
  | throws (msg : String)
  | httpError (status : Nat) (statusText : String)
  | jsonResponse (body : Option DataObject)
  | textResponse (text : String)

/-- Behaviour of waiting on `activeExecutions.getPostExecutePromise` after a
manual execution was started. -/
inductive WaitOutcome where
  | waitFailure (msg : String)
  | noRunData
  | completed (run : IRun)

/-- Behaviour of one manual execution submission
(`workflowExecutionService.executeManually` followed by the wait): the
submission can throw, return a response without an `executionId`, or start an
execution with the given id whose wait has the given outcome. -/
inductive ManualExecBehavior where
  | startFailure (msg : String)
  | noExecutionId
  | started (executionId : String) (outcome : WaitOutcome)

/-- The external collaborators of the service, modelled as oracles:
the stored workflow descriptions, the catalog lookup
(`workflowFinderService.findWorkflowForUser`, `none` meaning "not found or no
permission"), the manual execution runtime (keyed by the task index and the
prepared seed input), the webhook HTTP transport (keyed by URL and method —
the source's `fetch` call sends no request body, so the oracle takes none),
the `WEBHOOK_URL` environment variable, and the runtime helper
`WorkflowHelpers.getDataLastExecutedNodeData`. -/
structure Env where
  descriptions : List WorkflowDescriptionRecord
  findWorkflow : String → Option WorkflowEntity
  manualExec : Nat → Option (List NodeExecutionData) → ManualExecBehavior
  webhookFetch : String → String → WebhookBehavior
  webhookBaseUrl : Option String := none
  getDataLastExecutedNodeData : IRun → Option NodeRun

/-- Whitespace in the sense of `String.prototype.trim` (restricted to the
ASCII whitespace characters, which is all the service's inputs use). -/
def isJsWhitespace (c : Char) : Bool :=
  c.val == 9 || c.val == 10 || c.val == 11 || c.val == 12 || c.val == 13 || c.val == 32

/-- `String.prototype.trim` (ASCII whitespace). -/
def jsTrim (s : String) : String :=
  String.mk (((s.data.dropWhile isJsWhitespace).reverse.dropWhile isJsWhitespace).reverse)

/-- `String.prototype.toLowerCase` (ASCII letters, which is all the service
compares). -/
def jsToLower (s : String) : String :=
  String.mk (s.data.map Char.toLower)

/-- `String.prototype.toUpperCase` (ASCII letters). -/
def jsToUpper (s : String) : String :=
  String.mk (s.data.map Char.toUpper)

/-- Whether the character list `pat` occurs starting at the head of `s`. -/
def charsStartWith : List Char → List Char → Bool
  | _, [] => true
  | [], _ :: _ => false
  | a :: as, b :: bs => a == b && charsStartWith as bs

/-- Whether the character list `pat` occurs anywhere in `s`. -/
def charsContain (s pat : List Char) : Bool :=
  match s with
  | [] => pat.isEmpty
  | _ :: rest => charsStartWith s pat || charsContain rest pat

/-- Substring test (`String.prototype.includes`). -/
def strContains (s pat : String) : Bool :=
  charsContain s.data pat.data

/-- Translation of `normalizeIoType`: trim, lower-case, then map the accepted
spellings; `!value` (absent or empty string) and unrecognized spellings give
`none`. -/
def normalizeIoType (value : Option String) : Option TaskIoType :=
  match value with
  | none => none
  | some v =>
    if v == "" then none
    else
      let normalized := jsToLower (jsTrim v)
      if normalized == "json" then some .JSON
      else if normalized == "png" then some .png
      else if normalized == "noinput" then some .noInput
      else if normalized == "no-input" then some .noInput
      else if normalized == "nooutput" then some .noOutput
      else if normalized == "no-output" then some .noOutput
      else none

/-- Translation of `resolveIoType`: explicit task hint, else workflow-declared
metadata, else the fallback. -/
def resolveIoType (taskValue : Option String) (descriptionValue : Option TaskIoType)
    (fallback : TaskIoType) : TaskIoType :=
  ((normalizeIoType taskValue).orElse fun _ => descriptionValue).getD fallback

/-- Overwrite-or-insert into an association list (`Map.set` semantics, up to
lookup equivalence). -/
def mapSet (m : List (String × WorkflowDescriptionMetadata)) (k : String)
    (v : WorkflowDescriptionMetadata) : List (String × WorkflowDescriptionMetadata) :=
  if m.any (fun p => p.1 == k) then
    m.map (fun p => if p.1 == k then (k, v) else p)
  else
    m ++ [(k, v)]

/-- Lookup in the description map (`Map.get`). -/
def mapGet (m : List (String × WorkflowDescriptionMetadata)) (k : String) :
    Option WorkflowDescriptionMetadata :=
  (m.find? (fun p => p.1 == k)).map (fun p => p.2)

/-- The description-map construction loop of `runTaskChain` (records without a
`workflowDescription` are skipped; `inputType`/`outputType` are normalized). -/
def buildDescriptionMap (ds : List WorkflowDescriptionRecord) :
    List (String × WorkflowDescriptionMetadata) :=
  ds.foldl
    (fun m d =>
      match d.workflowDescription with
      | some wd =>
        mapSet m d.workflowId
          { inputType := normalizeIoType wd.inputType
            outputType := normalizeIoType wd.outputType
            workflowName := wd.workflowName }
      | none => m)
    []

/-- Translation of `extractPrimaryJson`: the `json` field of the first item
that has one; `undefined` when the list is absent, empty, or has no such item. -/
def extractPrimaryJson (data : Option (List NodeExecutionData)) : Option DataObject :=
  match data with
  | none => none
  | some l =>
    if l.length == 0 then none
    else
      match l.find? (fun item => item.json.isSome) with
      | none => none
      | some first => first.json

/-- Translation of `prepareInputData`. Thrown `BadRequestError`s become
`.error` with the captured message. The returned pair is
`(inputData, inputPresentation)`. -/
def prepareInputData (inputType : TaskIoType) (isFirstTask : Bool)
    (userPrompt : Option String) (previousOutput : Option (List NodeExecutionData)) :
    Except String (Option (List NodeExecutionData) × Option DataObject) :=
  match inputType with
  | .noInput => .ok (none, none)
  | .JSON =>
    if (match previousOutput with
        | some l => decide (l.length ≠ 0)
        | none => false) then
      match extractPrimaryJson previousOutput with
      | none => .error "Previous task did not return JSON data to pass forward"
      | some payload => .ok (some [{ json := some payload }], some payload)
    else if isFirstTask then
      match userPrompt with
      | some p =>
        if jsTrim p == "" then
          .error "User prompt is required for the first JSON-input workflow"
        else
          .ok (some [{ json := some [("prompt", Json.str p)] }], some [("prompt", Json.str p)])
      | none => .error "User prompt is required for the first JSON-input workflow"
    else
      .error "Unable to resolve JSON input payload for task"
  | .png =>
    match (previousOutput.getD []).find? (fun item => item.binary.isSome) with
    | some binarySource =>
      .ok
        (some [{ json := some (binarySource.json.getD []), binary := binarySource.binary }],
         some (binarySource.json.getD []))
    | none => .error "Previous task did not return PNG/binary data"
  | .noOutput => .ok (none, none)

/-- Translation of `getWebhookInfo`: the first node of type
`n8n-nodes-base.webhook`; `null` when there is none, it has no parameters, or
no (truthy) configured path. The method defaults to `GET` and is upper-cased. -/
def getWebhookInfo (workflow : WorkflowEntity) : Option WebhookInfo :=
  match (workflow.nodes.getD []).find? (fun node => node.type == "n8n-nodes-base.webhook") with
  | none => none
  | some webhookNode =>
    match webhookNode.parameters with
    | none => none
    | some params =>
      match params.path with
      | none => none
      | some path =>
        if path == "" then none
        else
          some
            { path := path
              method :=
                jsToUpper
                  (match params.httpMethod with
                   | some m => if m == "" then "GET" else m
                   | none => "GET") }

/-- Translation of `getNodeRunOutput`: the first `main` branch of the latest
recorded run of the named node. -/
def getNodeRunOutput (run : IRun) (nodeName : String) : Option (List NodeExecutionData) :=
  match (run.data.resultData.runData.find? (fun p => p.1 == nodeName)).map (fun p => p.2) with
  | none => none
  | some nodeRuns =>
    if nodeRuns.length == 0 then none
    else
      match nodeRuns.getLast? with
      | none => none
      | some latestRun =>
        match latestRun.data with
        | none => none
        | some conns =>
          match conns.main with
          | none => none
          | some mainOutput =>
            if mainOutput.length == 0 then none
            else
              match mainOutput.head? with
              | some branch => branch
              | none => none

/-- The `data?.length` guard used at every step of the output search: the
node's run output, kept only when non-empty. -/
def nonEmptyNodeOutput (run : IRun) (nodeName : String) : Option (List NodeExecutionData) :=
  match getNodeRunOutput run nodeName with
  | some d => if d.isEmpty then none else some d
  | none => none

/-- The `for (const node of nodes) { ... if (data?.length) return data }`
loops of `extractRespondNodeOutput`: first node in the list with a non-empty
run output. -/
def firstNodeListOutput (run : IRun) : List Node → Option (List NodeExecutionData)
  | [] => none
  | n :: rest =>
    match nonEmptyNodeOutput run n.name with
    | some d => some d
    | none => firstNodeListOutput run rest

/-- Same loop, over node names. -/
def firstNameListOutput (run : IRun) : List String → Option (List NodeExecutionData)
  | [] => none
  | n :: rest =>
    match nonEmptyNodeOutput run n with
    | some d => some d
    | none => firstNameListOutput run rest

/-- Translation of `getRespondNodes`: nodes of type `n8n-nodes-base.respondToWebhook`. -/
def getRespondNodes (workflow : WorkflowEntity) : List Node :=
  (workflow.nodes.getD []).filter (fun node => node.type == "n8n-nodes-base.respondToWebhook")

/-- The trigger-type test of `findTriggerNode` and of the trigger-exclusion in
`extractRespondNodeOutput`: a known trigger type, or a type containing
`trigger` (case-insensitive). -/
def isTriggerNodeType (t : String) : Bool :=
  t == "n8n-nodes-base.manualTrigger" ||
  t == "n8n-nodes-base.webhook" ||
  t == "n8n-nodes-base.webhookTrigger" ||
  t == "@n8n/n8n-nodes-langchain.manualChatTrigger" ||
  strContains (jsToLower t) "trigger"

/-- Translation of `extractRespondNodeOutput` (the output extractor), with its
five sequential early-return stages exactly as in the source: respond-type
nodes, then nodes matching the task/return naming convention, then the
`lastNodeExecuted` pointer, then all executed non-trigger nodes most recent
first, then the runtime helper `getDataLastExecutedNodeData`. -/
def extractRespondNodeOutput (helper : IRun → Option NodeRun) (run : IRun)
    (workflow : WorkflowEntity) : Option (List NodeExecutionData) :=
  match firstNodeListOutput run (getRespondNodes workflow) with
  | some data => some data
  | none =>
    match firstNodeListOutput run
        ((workflow.nodes.getD []).filter (fun node =>
          strContains (jsToLower node.name) "task" ||
          strContains (jsToLower node.name) "return" ||
          strContains (jsToLower node.type) "task")) with
    | some data => some data
    | none =>
      match (match run.data.resultData.lastNodeExecuted with
             | some lastNodeName => nonEmptyNodeOutput run lastNodeName
             | none => none) with
      | some fallback => some fallback
      | none =>
        let triggerNodeNames :=
          ((workflow.nodes.getD []).filter (fun n => isTriggerNodeType n.type)).map
            (fun n => n.name)
        let executedNodeNames :=
          ((run.data.resultData.runData.map (fun p => p.1)).filter
            (fun name => !(triggerNodeNames.contains name))).reverse
        match firstNameListOutput run executedNodeNames with
        | some data => some data
        | none =>
          match (helper run).bind (fun t => t.data) |>.bind (fun c => c.main) with
          | none => none
          | some mainOutput =>
            if mainOutput.length == 0 then none
            else
              match mainOutput.head? with
              | some branch => branch
              | none => none

/-- Stage 1 of the output search: respond-type nodes. -/
def respondNodeStage (run : IRun) (workflow : WorkflowEntity) :
    Option (List NodeExecutionData) :=
  firstNodeListOutput run (getRespondNodes workflow)

/-- Stage over the task/return naming convention: nodes whose name contains
`task` or `return` or whose type contains `task` (case-insensitive). -/
def taskManagerStage (run : IRun) (workflow : WorkflowEntity) :
    Option (List NodeExecutionData) :=
  firstNodeListOutput run
    ((workflow.nodes.getD []).filter (fun node =>
      strContains (jsToLower node.name) "task" ||
      strContains (jsToLower node.name) "return" ||
      strContains (jsToLower node.type) "task"))

/-- Stage over the runtime's own `lastNodeExecuted` pointer. -/
def lastExecutedStage (run : IRun) : Option (List NodeExecutionData) :=
  match run.data.resultData.lastNodeExecuted with
  | some lastNodeName => nonEmptyNodeOutput run lastNodeName
  | none => none

/-- Stage over all executed nodes, most recently executed first, excluding
trigger nodes. -/
def executedNodesStage (run : IRun) (workflow : WorkflowEntity) :
    Option (List NodeExecutionData) :=
  let triggerNodeNames :=
    ((workflow.nodes.getD []).filter (fun n => isTriggerNodeType n.type)).map (fun n => n.name)
  firstNameListOutput run
    ((run.data.resultData.runData.map (fun p => p.1)).filter
      (fun name => !(triggerNodeNames.contains name))).reverse

/-- Final fallback stage: the runtime-provided generic last-executed-node-data
accessor (`WorkflowHelpers.getDataLastExecutedNodeData`). -/
def helperFallbackStage (helper : IRun → Option NodeRun) (run : IRun) :
    Option (List NodeExecutionData) :=
  match (helper run).bind (fun t => t.data) |>.bind (fun c => c.main) with
  | none => none
  | some mainOutput =>
    if mainOutput.length == 0 then none
    else
      match mainOutput.head? with
      | some branch => branch
      | none => none

/-- The output search in the priority order that the specification states
(respond nodes, then the last-executed pointer, then the task/return naming
convention, then executed non-trigger nodes, then the runtime accessor) —
written from the spec's words, to be compared with the source translation
`extractRespondNodeOutput`. -/
def specOrderedExtract (helper : IRun → Option NodeRun) (run : IRun)
    (workflow : WorkflowEntity) : Option (List NodeExecutionData) :=
  (respondNodeStage run workflow).orElse fun _ =>
  (lastExecutedStage run).orElse fun _ =>
  (taskManagerStage run workflow).orElse fun _ =>
  (executedNodesStage run workflow).orElse fun _ =>
  helperFallbackStage helper run

/-- Translation of `loadWorkflow`: catalog lookup; `NotFoundError` when the
workflow is absent or the user lacks permission. -/
def loadWorkflow (env : Env) (workflowId : String) : Except String WorkflowEntity :=
  match env.findWorkflow workflowId with
  | none => .error ("Workflow with ID \"" ++ workflowId ++ "\" not found")
  | some workflow => .ok workflow

/-- The webhook URL built by `executeViaWebhook` from the `WEBHOOK_URL`
environment variable (defaulting to localhost) and the configured path. -/
def webhookUrl (env : Env) (info : WebhookInfo) : String :=
  (env.webhookBaseUrl.getD "http://localhost:5678") ++ "/webhook/" ++ info.path

/-- Translation of `executeViaWebhook`: one `fetch` of the webhook URL with
the resolved method and no request body; non-2xx statuses and thrown errors
propagate as errors, JSON bodies are returned as parsed (possibly `null`),
non-JSON bodies are wrapped as `{ response: text }`. -/
def executeViaWebhook (env : Env) (info : WebhookInfo) : Except String (Option DataObject) :=
  match env.webhookFetch (webhookUrl env info) info.method with
  | .throws msg => .error msg
  | .httpError status statusText =>
    .error ("Webhook returned " ++ toString status ++ ": " ++ statusText)
  | .jsonResponse body => .ok body
  | .textResponse text => .ok (some [("response", Json.str text)])

/-- Outcome of a completed manual execution. -/
structure ManualOutcome where
  executionId : String
  runData : IRun

/-- The `error.message || 'Unknown error'` rendering of a run-level error. -/
def runErrorMessage (e : RunError) : String :=
  match e.message with
  | some m => if m == "" then "Unknown error" else m
  | none => "Unknown error"

/-- Translation of `executeWorkflowAndWait` (manual execution path): submit
the execution with the prepared seed data, wait for completion, and classify
the run; a run whose `resultData.error` is set becomes an
`InternalServerError` whose message wraps the run error. -/
def executeWorkflowAndWait (env : Env) (taskIndex : Nat) (workflow : WorkflowEntity)
    (inputData : Option (List NodeExecutionData)) : Except String ManualOutcome :=
  match env.manualExec taskIndex inputData with
  | .startFailure msg => .error msg
  | .noExecutionId =>
    .error ("Failed to start execution for workflow \"" ++ workflow.id ++ "\"")
  | .started executionId outcome =>
    match outcome with
    | .waitFailure msg => .error msg
    | .noRunData =>
      .error ("Execution \"" ++ executionId ++ "\" did not return any data")
    | .completed run =>
      match run.data.resultData.error with
      | some e => .error ("Workflow execution failed: " ++ runErrorMessage e)
      | none => .ok { executionId := executionId, runData := run }

/-- The body of one iteration of the `for (const result of results)` loop of
`runTaskChain` (its `try` block): load the workflow; if it is webhook-exposed
require it to be active and execute it via HTTP, otherwise prepare the seed
input, run it on the manual path and extract its output. On success the
returned triple is the updated task record, the new `previousOutputData` and
the new `finalOutput`; any thrown error is returned with its message. -/
def execStep (env : Env) (userPrompt : Option String) (r : TaskExecutionResult)
    (previousOutputData : Option (List NodeExecutionData)) :
    Except String
      (TaskExecutionResult × Option (List NodeExecutionData) × Option DataObject) :=
  match loadWorkflow env r.workflowId with
  | .error msg => .error msg
  | .ok workflow =>
    match getWebhookInfo workflow with
    | some webhookInfo =>
      if !workflow.active then
        .error ("Workflow \"" ++ workflow.name ++
          "\" must be active to execute via webhook. Please activate the workflow and try again.")
      else
        match executeViaWebhook env webhookInfo with
        | .error msg => .error msg
        | .ok webhookResult =>
          let r1 : TaskExecutionResult :=
            { r with
              executionId := some "webhook-execution"
              outputPayload := webhookResult
              status := .succeeded }
          let finalOutput := if r1.outputType == .noOutput then none else r1.outputPayload
          let previousOutput :=
            if r1.outputType == .noOutput then none
            else
              match webhookResult with
              | some wr => some [{ json := some wr }]
              | none => none
          .ok (r1, previousOutput, finalOutput)
    | none =>
      match prepareInputData r.inputType (r.index == 0) userPrompt previousOutputData with
      | .error msg => .error msg
      | .ok (inputData, inputPresentation) =>
        match executeWorkflowAndWait env r.index workflow inputData with
        | .error msg => .error msg
        | .ok executionOutcome =>
          let taskOutputData :=
            extractRespondNodeOutput env.getDataLastExecutedNodeData
              executionOutcome.runData workflow
          let r1 : TaskExecutionResult :=
            { r with
              inputPayload := inputPresentation
              executionId := some executionOutcome.executionId
              rawOutput := taskOutputData
              outputPayload := extractPrimaryJson taskOutputData
              status := .succeeded }
          let finalOutput := if r1.outputType == .noOutput then none else r1.outputPayload
          let previousOutput :=
            if r1.outputType == .noOutput then none
            else taskOutputData.orElse fun _ => previousOutputData
          .ok (r1, previousOutput, finalOutput)

/-- The task loop of `runTaskChain`: process the pending task records in
order, accumulating the finished records (in reverse) and threading
`previousOutputData` and `finalOutput`; the first error aborts the chain,
marking the current task failed and leaving the rest pending. -/
def chainLoop (env : Env) (userPrompt : Option String) (total : Nat) :
    List TaskExecutionResult → List TaskExecutionResult →
    Option (List NodeExecutionData) → Option DataObject → TaskChainResult
  | [], done, _, finalOutput =>
    { success := true
      tasks := done.reverse
      progress := { currentTaskIndex := total, totalTasks := total, currentWorkflowId := none }
      failedTask := none
      error := none
      finalOutput := finalOutput }
  | r :: rest, done, previousOutputData, finalOutput =>
    match execStep env userPrompt { r with status := .running } previousOutputData with
    | .ok out => chainLoop env userPrompt total rest (out.1 :: done) out.2.1 out.2.2
    | .error msg =>
      let failed : TaskExecutionResult := { r with status := .failed, error := some msg }
      { success := false
        tasks := done.reverse ++ failed :: rest
        progress :=
          { currentTaskIndex := r.index
            totalTasks := total
            currentWorkflowId := some r.workflowId }
        failedTask := some failed
        error := some msg
        finalOutput := finalOutput }

/-- The construction of one initial task record in `runTaskChain`'s
`tasks.map`: pending status and the resolved I/O types (explicit hint, else
workflow-declared metadata, else `noInput`/`JSON`). -/
def mkInitResult (descMap : List (String × WorkflowDescriptionMetadata)) (index : Nat)
    (t : TaskPlanItem) : TaskExecutionResult :=
  let description := mapGet descMap t.workflowId
  { index := index
    workflowId := t.workflowId
    workflowName := description.bind (fun d => d.workflowName)
    taskSummary := t.task
    status := .pending
    inputType := resolveIoType t.input (description.bind (fun d => d.inputType)) .noInput
    outputType := resolveIoType t.output (description.bind (fun d => d.outputType)) .JSON }

/-- The initial task records, positionally indexed from `i`. -/
def initResults (descMap : List (String × WorkflowDescriptionMetadata)) :
    Nat → List TaskPlanItem → List TaskExecutionResult
  | _, [] => []
  | i, t :: ts => mkInitResult descMap i t :: initResults descMap (i + 1) ts

/-- Translation of `runTaskChain`: reject an empty task list, build the
description map and the positional pending records, then run the task loop. -/
def runTaskChain (env : Env) (tasks : List TaskPlanItem) (userPrompt : Option String) :
    Except String TaskChainResult :=
  if tasks.length == 0 then
    .error "Tasks array is required and must not be empty"
  else
    .ok
      (chainLoop env userPrompt tasks.length
        (initResults (buildDescriptionMap env.descriptions) 0 tasks) [] none none)

/-- The `!userPrompt?.trim()` test of `prepareInputData`: prompt absent,
empty, or whitespace-only. -/
def promptBlank : Option String → Bool
  | none => true
  | some s => jsTrim s == ""

/-- A webhook-type node with a (truthy) configured path — the sense in which
the specification calls a workflow "webhook-exposed". -/
def nodeHasConfiguredPath (n : Node) : Bool :=
  n.type == "n8n-nodes-base.webhook" &&
  (match n.parameters with
   | none => false
   | some params =>
     match params.path with
     | none => false
     | some p => !(p == ""))

/-- A successful step always leaves the record `succeeded` and preserves the
identifying and resolved-type fields of the task record. -/
theorem execStep_ok_fields (env : Env) (p : Option String) (r : TaskExecutionResult)
    (prev : Option (List NodeExecutionData))
    (out : TaskExecutionResult × Option (List NodeExecutionData) × Option DataObject)
    (h : execStep env p r prev = .ok out) :
    out.1.status = .succeeded ∧ out.1.outputType = r.outputType ∧
    out.1.workflowId = r.workflowId ∧ out.1.index = r.index := by
  simp only [execStep] at h
  iterate 10 (all_goals try split at h)
  all_goals try exact Except.noConfusion h
  all_goals injection h with h
  all_goals subst h
  all_goals exact ⟨rfl, rfl, rfl, rfl⟩

/-- The `noOutput` gate of a successful step: neither `previousOutputData` nor
`finalOutput` carries anything forward. -/
theorem execStep_noOutput_gate (env : Env) (p : Option String) (r : TaskExecutionResult)
    (prev : Option (List NodeExecutionData))
    (out : TaskExecutionResult × Option (List NodeExecutionData) × Option DataObject)
    (h : execStep env p r prev = .ok out) (hno : r.outputType = .noOutput) :
    out.2.1 = none ∧ out.2.2 = none := by
  simp only [execStep] at h
  iterate 10 (all_goals try split at h)
  all_goals try exact Except.noConfusion h
  all_goals try (injection h with h; subst h; exact ⟨rfl, rfl⟩)
  all_goals simp_all [hno]

/-- `initResults` is positional: one record per planned task. -/
theorem initResults_length (descMap : List (String × WorkflowDescriptionMetadata)) :
    ∀ (i : Nat) (ts : List TaskPlanItem), (initResults descMap i ts).length = ts.length := by
  intro i ts
  induction ts generalizing i with
  | nil => rfl
  | cons t ts ih => simp [initResults, ih]

/-- Every initial record starts `pending`. -/
theorem initResults_status (descMap : List (String × WorkflowDescriptionMetadata)) :
    ∀ (i : Nat) (ts : List TaskPlanItem) (r : TaskExecutionResult),
      r ∈ initResults descMap i ts → r.status = .pending := by
  intro i ts
  induction ts generalizing i with
  | nil => intro r hr; cases hr
  | cons t ts ih =>
    intro r hr
    rcases List.mem_cons.mp hr with h | h
    · subst h; rfl
    · exact ih _ r h

/-- The task loop returns one record per processed-or-pending task. -/
theorem chainLoop_length (env : Env) (p : Option String) (total : Nat) :
    ∀ (pending done : List TaskExecutionResult) prevOut finalOut,
      (chainLoop env p total pending done prevOut finalOut).tasks.length =
        done.length + pending.length := by
  intro pending
  induction pending with
  | nil => intro done prevOut finalOut; simp [chainLoop]
  | cons r rest ih =>
    intro done prevOut finalOut
    rcases hstep : execStep env p { r with status := .running } prevOut with msg | out
    · simp [chainLoop, hstep]
      try omega
    · simp only [chainLoop, hstep]
      rw [ih]
      simp
      try omega

/-- On overall success the loop reports every task `succeeded`, no failed
task, no error, and the threaded `finalOutput`. -/
theorem chainLoop_success (env : Env) (p : Option String) (total : Nat) :
    ∀ (pending done : List TaskExecutionResult) prevOut finalOut,
      (∀ r ∈ done, r.status = .succeeded) →
      (chainLoop env p total pending done prevOut finalOut).success = true →
      (∀ r ∈ (chainLoop env p total pending done prevOut finalOut).tasks,
          r.status = .succeeded) ∧
      (chainLoop env p total pending done prevOut finalOut).failedTask = none ∧
      (chainLoop env p total pending done prevOut finalOut).error = none := by
  intro pending
  induction pending with
  | nil =>
    intro done prevOut finalOut hdone _
    refine ⟨?_, rfl, rfl⟩
    intro r hr
    simp only [chainLoop, List.mem_reverse] at hr
    exact hdone r hr
  | cons r rest ih =>
    intro done prevOut finalOut hdone hsucc
    rcases hstep : execStep env p { r with status := .running } prevOut with msg | out
    · simp [chainLoop, hstep] at hsucc
    · simp only [chainLoop, hstep] at hsucc ⊢
      refine ih (out.1 :: done) out.2.1 out.2.2 ?_ hsucc
      intro x hx
      rcases List.mem_cons.mp hx with h | h
      · subst h; exact (execStep_ok_fields env p _ prevOut out hstep).1
      · exact hdone x h

/-- On failure the loop's result is: the already-succeeded records, then the
record of the task whose step threw (marked `failed`, carrying the thrown
message, which is also the chain-level `error` and the `failedTask` pointer),
then the untouched pending records. -/
theorem chainLoop_failure (env : Env) (p : Option String) (total : Nat) :
    ∀ (pending done : List TaskExecutionResult) prevOut finalOut res,
      chainLoop env p total pending done prevOut finalOut = res →
      (∀ r ∈ done, r.status = .succeeded) →
      (∀ r ∈ pending, r.status = .pending) →
      res.success = false →
      ∃ (k : Nat) (f rr : TaskExecutionResult)
        (prev : Option (List NodeExecutionData)) (msg : String),
        k < res.tasks.length ∧
        (∀ t ∈ res.tasks.take k, t.status = .succeeded) ∧
        res.tasks[k]? = some f ∧
        res.failedTask = some f ∧
        res.error = some msg ∧
        f = { rr with status := .failed, error := some msg } ∧
        execStep env p { rr with status := .running } prev = .error msg ∧
        (∀ t ∈ res.tasks.drop (k + 1), t.status = .pending) := by
  intro pending
  induction pending with
  | nil =>
    intro done prevOut finalOut res hres hdone hpend hfail
    subst hres
    simp [chainLoop] at hfail
  | cons r rest ih =>
    intro done prevOut finalOut res hres hdone hpend hfail
    rcases hstep : execStep env p { r with status := .running } prevOut with msg | out
    · rw [chainLoop, hstep] at hres
      subst hres
      refine ⟨done.length, { r with status := .failed, error := some msg }, r, prevOut, msg,
        ?_, ?_, ?_, rfl, rfl, rfl, hstep, ?_⟩
      · simp
      · intro t ht
        have hlen : done.reverse.length = done.length := by simp
        rw [← hlen, List.take_left] at ht
        exact hdone t (List.mem_reverse.mp ht)
      · have hlen : done.reverse.length ≤ done.length := by simp
        rw [List.getElem?_append_right hlen]
        simp
      · intro t ht
        have hsplit :
            done.reverse ++ { r with status := .failed, error := some msg } :: rest =
              (done.reverse ++ [{ r with status := .failed, error := some msg }]) ++ rest := by
          simp
        have hlen : (done.reverse ++
            [{ r with status := TaskExecutionStatus.failed, error := some msg }]).length =
              done.length + 1 := by simp
        simp only [TaskChainResult.tasks] at ht
        rw [hsplit, List.drop_left' hlen] at ht
        exact hpend t (List.mem_cons_of_mem r ht)
    · rw [chainLoop, hstep] at hres
      refine ih (out.1 :: done) out.2.1 out.2.2 res hres ?_ ?_ hfail
      · intro x hx
        rcases List.mem_cons.mp hx with h | h
        · subst h; exact (execStep_ok_fields env p _ prevOut out hstep).1
        · exact hdone x h
      · intro x hx
        exact hpend x (List.mem_cons_of_mem r hx)

/-- On success with at least one task, the loop's last record is the record of
the last task, and if that record's output type is `noOutput` the chain's
`finalOutput` is `none`. -/
theorem chainLoop_last_noOutput (env : Env) (p : Option String) (total : Nat) :
    ∀ (pending done : List TaskExecutionResult) prevOut finalOut res,
      chainLoop env p total pending done prevOut finalOut = res →
      res.success = true →
      pending ≠ [] →
      ∃ lastR, res.tasks.getLast? = some lastR ∧
        (lastR.outputType = .noOutput → res.finalOutput = none) := by
  intro pending
  induction pending with
  | nil =>
    intro done prevOut finalOut res hres hsucc hne
    exact absurd rfl hne
  | cons r rest ih =>
    intro done prevOut finalOut res hres hsucc _
    rcases hstep : execStep env p { r with status := .running } prevOut with msg | out
    · rw [chainLoop, hstep] at hres
      subst hres
      simp at hsucc
    · rw [chainLoop, hstep] at hres
      rcases hrest : rest with _ | ⟨r2, rest2⟩
      · subst hrest
        simp only [chainLoop] at hres
        subst hres
        refine ⟨out.1, ?_, ?_⟩
        · simp [List.getLast?_concat]
        · intro hno
          have := execStep_noOutput_gate env p { r with status := .running } prevOut out hstep
          simp only [execStep_ok_fields env p _ prevOut out hstep |>.2.1] at hno
          exact (this hno).2
      · subst hrest
        exact ih (out.1 :: done) out.2.1 out.2.2 res hres hsucc (by simp)

/-- C1: whenever a chain run ends unsuccessfully (which is exactly the case in
which some task's execution threw), there is an index `k` such that the
returned result keeps the full positional task array (`tasks.length` equals
the planned count), marks tasks `0..k-1` succeeded, marks task `k` failed and
carries its captured message as the chain error, leaves every task after `k`
pending (in particular none running), and points `failedTask` at `tasks[k]`. -/
theorem runTaskChain_failure_shape (env : Env) (tasks : List TaskPlanItem)
    (p : Option String) (res : TaskChainResult)
    (hrun : runTaskChain env tasks p = .ok res) (hfail : res.success = false) :
    ∃ k, k < res.tasks.length ∧ res.tasks.length = tasks.length ∧
      (∀ t ∈ res.tasks.take k, t.status = .succeeded) ∧
      (∃ f, res.tasks[k]? = some f ∧ f.status = .failed ∧ f.error = res.error) ∧
      res.error.isSome = true ∧
      (∀ t ∈ res.tasks.drop (k + 1), t.status = .pending) ∧
      res.failedTask = res.tasks[k]? := by
  unfold runTaskChain at hrun
  split at hrun
  · exact Except.noConfusion hrun
  · injection hrun with hres
    obtain ⟨k, f, rr, prev, msg, hk, htake, hget, hft, herr, hf, _, hdrop⟩ :=
      chainLoop_failure env p tasks.length _ [] none none res hres
        (by intro x hx; cases hx) (initResults_status _ 0 tasks) hfail
    have hlen : res.tasks.length = tasks.length := by
      rw [← hres, chainLoop_length]
      simp [initResults_length]
    refine ⟨k, hk, hlen, htake, ⟨f, hget, ?_, ?_⟩, ?_, hdrop, ?_⟩
    · rw [hf]
    · rw [hf, herr]
    · rw [herr]; rfl
    · rw [hft, hget]

/-- C2: a chain run over a (necessarily non-empty) task list returns
`success = true` exactly when every task record is `succeeded`, and the task
array is always positional and total (`tasks.length` equals the planned
count). -/
theorem runTaskChain_success_shape (env : Env) (tasks : List TaskPlanItem)
    (p : Option String) (res : TaskChainResult)
    (hrun : runTaskChain env tasks p = .ok res) :
    (res.success = true ↔ ∀ t ∈ res.tasks, t.status = .succeeded) ∧
    res.tasks.length = tasks.length ∧ tasks ≠ [] := by
  unfold runTaskChain at hrun
  split at hrun
  · exact Except.noConfusion hrun
  · next hne =>
    injection hrun with hres
    have hlen : res.tasks.length = tasks.length := by
      rw [← hres, chainLoop_length]
      simp [initResults_length]
    refine ⟨⟨?_, ?_⟩, hlen, ?_⟩
    · intro hsucc
      have := chainLoop_success env p tasks.length _ [] none none
        (by intro x hx; cases hx) (by rw [hres]; exact hsucc)
      rw [hres] at this
      exact this.1
    · intro hall
      by_contra hnot
      have hfail : res.success = false := by
        cases hcase : res.success
        · rfl
        · exact absurd hcase hnot
      obtain ⟨k, f, rr, prev, msg, hk, _, hget, _, _, hf, _, _⟩ :=
        chainLoop_failure env p tasks.length _ [] none none res hres
          (by intro x hx; cases hx) (initResults_status _ 0 tasks) hfail
      have hmem : f ∈ res.tasks := by
        have := List.getElem?_eq_some.mp hget
        obtain ⟨hlt, hEq⟩ := this
        exact hEq ▸ List.getElem_mem hlt
      have := hall f hmem
      rw [hf] at this
      exact absurd this (by intro hcontr; cases hcontr)
    · intro hEq
      subst hEq
      simp at hne

/-- A plain two-node workflow with a manual trigger, used by concrete runs. -/
def wfPlain : WorkflowEntity :=
  { id := "w1", name := "Plain", active := false,
    nodes := some [{ name := "Start", type := "n8n-nodes-base.manualTrigger" },
                   { name := "Do", type := "n8n-nodes-base.set" }] }

/-- A completed run of `wfPlain` whose last executed node produced
`{ price: 42 }`. -/
def runPlain : IRun :=
  { data := { resultData :=
      { runData :=
          [("Start",
            [{ data := some { main := some [some [{ json := some [("seed", Json.num 0)] }]] } }]),
           ("Do",
            [{ data := some { main := some [some [{ json := some [("price", Json.num 42)] }]] } }])],
        lastNodeExecuted := some "Do" } } }

/-- Environment in which `w1` exists and every manual execution completes with
`runPlain`. -/
def okEnv : Env :=
  { descriptions := []
    findWorkflow := fun id => if id == "w1" then some wfPlain else none
    manualExec := fun _ _ => .started "e1" (.completed runPlain)
    webhookFetch := fun _ _ => .throws "unused"
    getDataLastExecutedNodeData := fun _ => none }

/-- A two-task plan over `w1` (default I/O types). -/
def okTasks : List TaskPlanItem :=
  [{ workflowId := "w1", task := "first step" }, { workflowId := "w1", task := "second step" }]

/-- Fallback chain result used when destructuring a known-`ok` run. -/
def fallbackChainResult : TaskChainResult :=
  { success := true, tasks := [], progress := { currentTaskIndex := 0, totalTasks := 0 } }

/-- The concrete result of the successful two-task run. -/
def okChainRes : TaskChainResult :=
  match runTaskChain okEnv okTasks none with
  | .ok r => r
  | .error _ => fallbackChainResult

/-- Environment in which no workflow can be found, so every task's load step
throws `NotFoundError`. -/
def failEnv : Env :=
  { descriptions := []
    findWorkflow := fun _ => none
    manualExec := fun _ _ => .startFailure "unused"
    webhookFetch := fun _ _ => .throws "unused"
    getDataLastExecutedNodeData := fun _ => none }

/-- A two-task plan whose first task will fail to load. -/
def failTasks : List TaskPlanItem :=
  [{ workflowId := "w1", task := "first step" }, { workflowId := "w2", task := "second step" }]

/-- The concrete result of the failing run. -/
def failChainRes : TaskChainResult :=
  match runTaskChain failEnv failTasks none with
  | .ok r => r
  | .error _ => fallbackChainResult

/-- Witness for C1, at a concrete two-task chain whose first task's load
throws: the hypotheses hold and the failure shape follows. -/
theorem runTaskChain_failure_shape_witness :
    runTaskChain failEnv failTasks none = .ok failChainRes ∧
    failChainRes.success = false ∧
    (∃ k, k < failChainRes.tasks.length ∧
      failChainRes.tasks.length = failTasks.length ∧
      (∀ t ∈ failChainRes.tasks.take k, t.status = .succeeded) ∧
      (∃ f, failChainRes.tasks[k]? = some f ∧ f.status = .failed ∧
        f.error = failChainRes.error) ∧
      failChainRes.error.isSome = true ∧
      (∀ t ∈ failChainRes.tasks.drop (k + 1), t.status = .pending) ∧
      failChainRes.failedTask = failChainRes.tasks[k]?) :=
  ⟨rfl, rfl, runTaskChain_failure_shape failEnv failTasks none failChainRes rfl rfl⟩

/-- Witness for C2, at a concrete two-task chain in which both manual
executions complete. -/
theorem runTaskChain_success_shape_witness :
    runTaskChain okEnv okTasks none = .ok okChainRes ∧
    okChainRes.success = true ∧
    ((okChainRes.success = true ↔ ∀ t ∈ okChainRes.tasks, t.status = .succeeded) ∧
      okChainRes.tasks.length = okTasks.length ∧ okTasks ≠ []) :=
  ⟨rfl, rfl, runTaskChain_success_shape okEnv okTasks none okChainRes rfl⟩

/-- C3: a task whose resolved `outputType` is `noOutput` never propagates its
workflow's output. A successful step of such a task yields `none` both as the
`previousOutputData` threaded to the next task (so the next task's seed is
never this task's output) and as the `finalOutput` contribution; consequently
a successfully completed chain whose last task resolved to `noOutput` has
`finalOutput = none`, even when the underlying workflow produced data. -/
theorem noOutput_gate_claim :
    (∀ (env : Env) (p : Option String) (r : TaskExecutionResult)
        (prev : Option (List NodeExecutionData))
        (out : TaskExecutionResult × Option (List NodeExecutionData) × Option DataObject),
      r.outputType = .noOutput → execStep env p r prev = .ok out →
      out.2.1 = none ∧ out.2.2 = none) ∧
    (∀ (env : Env) (tasks : List TaskPlanItem) (p : Option String)
        (res : TaskChainResult) (lastR : TaskExecutionResult),
      runTaskChain env tasks p = .ok res → res.success = true →
      res.tasks.getLast? = some lastR → lastR.outputType = .noOutput →
      res.finalOutput = none) := by
  constructor
  · intro env p r prev out hno h
    exact execStep_noOutput_gate env p r prev out h hno
  · intro env tasks p res lastR hrun hsucc hlast hno
    unfold runTaskChain at hrun
    split at hrun
    · exact Except.noConfusion hrun
    · next hne =>
      injection hrun with hres
      have hpend : initResults (buildDescriptionMap env.descriptions) 0 tasks ≠ [] := by
        intro hcontr
        have := initResults_length (buildDescriptionMap env.descriptions) 0 tasks
        rw [hcontr] at this
        simp at hne
        exact hne (List.length_eq_zero.mp (by simpa using this.symm))
      obtain ⟨lastR2, hlast2, himp⟩ :=
        chainLoop_last_noOutput env p tasks.length _ [] none none res hres hsucc hpend
      rw [hlast] at hlast2
      injection hlast2 with hEq
      exact himp (hEq ▸ hno)

/-- A one-task plan whose explicit output hint resolves to `noOutput`. -/
def noOutTasks : List TaskPlanItem :=
  [{ workflowId := "w1", task := "quiet step", output := some "noOutput" }]

/-- The concrete result of the successful `noOutput` run. -/
def noOutChainRes : TaskChainResult :=
  match runTaskChain okEnv noOutTasks none with
  | .ok r => r
  | .error _ => fallbackChainResult

/-- The last task record of that run. -/
def noOutLastR : TaskExecutionResult :=
  match noOutChainRes.tasks.getLast? with
  | some r => r
  | none =>
    { index := 0, workflowId := "w1", taskSummary := "quiet step", status := .pending,
      inputType := .noInput, outputType := .noOutput }

/-- A `noOutput` task record fed directly to one step. -/
def noOutStepRec : TaskExecutionResult :=
  { index := 0, workflowId := "w1", taskSummary := "quiet step", status := .running,
    inputType := .noInput, outputType := .noOutput }

/-- The concrete outcome of that step. -/
def noOutStepOut :
    TaskExecutionResult × Option (List NodeExecutionData) × Option DataObject :=
  match execStep okEnv none noOutStepRec none with
  | .ok o => o
  | .error _ => (noOutStepRec, none, none)

/-- Witness for C3: one concrete `noOutput` step whose workflow produced
`{ price: 42 }`, and one concrete chain ending in a `noOutput` task. -/
theorem noOutput_gate_claim_witness :
    (execStep okEnv none noOutStepRec none = .ok noOutStepOut ∧
      noOutStepOut.1.outputPayload = some [("price", Json.num 42)] ∧
      noOutStepOut.2.1 = none ∧ noOutStepOut.2.2 = none) ∧
    (runTaskChain okEnv noOutTasks none = .ok noOutChainRes ∧
      noOutChainRes.success = true ∧
      noOutChainRes.tasks.getLast? = some noOutLastR ∧
      noOutLastR.outputType = .noOutput ∧
      noOutChainRes.finalOutput = none) :=
  ⟨⟨rfl, rfl,
    (noOutput_gate_claim.1 okEnv none noOutStepRec none noOutStepOut rfl rfl).1,
    (noOutput_gate_claim.1 okEnv none noOutStepRec none noOutStepOut rfl rfl).2⟩,
   ⟨rfl, rfl, rfl, rfl,
    noOutput_gate_claim.2 okEnv noOutTasks none noOutChainRes noOutLastR rfl rfl rfl rfl⟩⟩

/-- C4: I/O type resolution is a pure function with precedence explicit hint,
then workflow-declared metadata, then the per-direction default; the
normalization is trimmed and case-insensitive and accepts the hyphenated and
unhyphenated spellings of `no-input`/`noInput` and `no-output`/`noOutput`;
every unrecognized hint falls through to the next source. In particular
`resolve('json', x, y) = 'JSON'`, `resolve(undefined, 'noOutput', 'JSON') =
'noOutput'` and `resolve(undefined, undefined, 'noInput') = 'noInput'`. -/
theorem resolveIoType_claim :
    ((∀ (d : Option TaskIoType) (f : TaskIoType), resolveIoType (some "json") d f = .JSON) ∧
     resolveIoType none (some .noOutput) .JSON = .noOutput ∧
     resolveIoType none none .noInput = .noInput ∧
     normalizeIoType (some " No-Input ") = some .noInput ∧
     normalizeIoType (some "NOINPUT") = some .noInput ∧
     normalizeIoType (some "no-output") = some .noOutput ∧
     normalizeIoType (some "NoOutput") = some .noOutput ∧
     normalizeIoType (some "Json") = some .JSON ∧
     normalizeIoType (some "PNG") = some .png) ∧
    (∀ (t : Option String) (v : TaskIoType) (d : Option TaskIoType) (f : TaskIoType),
      normalizeIoType t = some v → resolveIoType t d f = v) ∧
    (∀ (s : String) (d : TaskIoType) (f : TaskIoType),
      normalizeIoType (some s) = none →
      resolveIoType (some s) (some d) f = d ∧ resolveIoType (some s) none f = f) := by
  refine ⟨⟨?_, by decide, by decide, by decide, by decide, by decide, by decide,
    by decide, by decide⟩, ?_, ?_⟩
  · intro d f
    have h : normalizeIoType (some "json") = some TaskIoType.JSON := by decide
    unfold resolveIoType
    rw [h]
    rfl
  · intro t v d f h
    unfold resolveIoType
    rw [h]
    rfl
  · intro s d f h
    unfold resolveIoType
    rw [h]
    exact ⟨rfl, rfl⟩

/-- Witness for C4: the quantified components applied at concrete hints. -/
theorem resolveIoType_claim_witness :
    resolveIoType (some "json") (some .noOutput) .noInput = .JSON ∧
    resolveIoType (some "PNG") (some .JSON) .noInput = .png ∧
    resolveIoType (some "garbage") (some .noOutput) .JSON = .noOutput ∧
    resolveIoType (some "garbage") none .JSON = .JSON :=
  ⟨resolveIoType_claim.1.1 (some .noOutput) .noInput,
   resolveIoType_claim.2.1 (some "PNG") .png (some .JSON) .noInput (by decide),
   (resolveIoType_claim.2.2 "garbage" .noOutput .JSON (by decide)).1,
   (resolveIoType_claim.2.2 "garbage" .noOutput .JSON (by decide)).2⟩

/-- A workflow with a trigger, a node named with the task convention, and a
differently-named final node. -/
def c5Wf : WorkflowEntity :=
  { id := "w5", name := "Five", active := false,
    nodes := some [{ name := "My Trigger", type := "n8n-nodes-base.manualTrigger" },
                   { name := "Do Task", type := "n8n-nodes-base.set" },
                   { name := "Final", type := "n8n-nodes-base.set" }] }

/-- A completed run of `c5Wf` in which both `Do Task` and `Final` produced
non-empty output and the runtime points at `Final` as the last executed node. -/
def c5Run : IRun :=
  { data := { resultData :=
      { runData :=
          [("My Trigger",
            [{ data := some { main := some [some [{ json := some [("seed", Json.num 1)] }]] } }]),
           ("Do Task",
            [{ data := some { main := some [some [{ json := some [("node", Json.str "doTask")] }]] } }]),
           ("Final",
            [{ data := some { main := some [some [{ json := some [("node", Json.str "final")] }]] } }])],
        lastNodeExecuted := some "Final" } } }

/-- Counterexample to C5 as stated: with no respond node, output from both a
task-convention node and the last-executed node, the source extractor returns
the task-convention node's output while the claimed priority order (respond,
then the last-executed pointer, then the task/return convention) would return
the last-executed node's output. -/
theorem extractOrder_counterexample :
    extractRespondNodeOutput (fun _ => none) c5Run c5Wf =
      some [{ json := some [("node", Json.str "doTask")] }] ∧
    specOrderedExtract (fun _ => none) c5Run c5Wf =
      some [{ json := some [("node", Json.str "final")] }] ∧
    extractRespondNodeOutput (fun _ => none) c5Run c5Wf ≠
      specOrderedExtract (fun _ => none) c5Run c5Wf :=
  ⟨by decide, by decide, by decide⟩

/-- C5 amended: the extractor searches the run's per-node results in the order
respond-type nodes, then nodes matching the task/return naming convention,
then the runtime's last-executed-node pointer, then all executed non-trigger
nodes most recently executed first, then the runtime's generic
last-executed-node-data accessor, returning the first non-empty hit; when no
stage yields a result the extracted output is `none` rather than an error. -/
theorem extractOrder_amended (helper : IRun → Option NodeRun) (run : IRun)
    (w : WorkflowEntity) :
    extractRespondNodeOutput helper run w =
      ((respondNodeStage run w).orElse fun _ =>
       (taskManagerStage run w).orElse fun _ =>
       (lastExecutedStage run).orElse fun _ =>
       (executedNodesStage run w).orElse fun _ =>
       helperFallbackStage helper run) := by
  simp only [extractRespondNodeOutput, respondNodeStage, taskManagerStage,
    lastExecutedStage, executedNodesStage, helperFallbackStage]
  iterate 6 (all_goals try split)
  all_goals simp_all [Option.orElse]

/-- An active workflow exposed through a webhook node with a configured path. -/
def wfHookActive : WorkflowEntity :=
  { id := "wh", name := "Hooked", active := true,
    nodes := some [{ name := "Hook", type := "n8n-nodes-base.webhook",
                     parameters := some { path := some "p" } }] }

/-- Environment in which `wh` is the active webhook workflow and its webhook
returns `{ ok: 1 }`. -/
def hookEnv : Env :=
  { descriptions := []
    findWorkflow := fun id => if id == "wh" then some wfHookActive else none
    manualExec := fun _ _ => .startFailure "manual path not used"
    webhookFetch := fun _ _ => .jsonResponse (some [("ok", Json.num 1)])
    getDataLastExecutedNodeData := fun _ => none }

/-- A first task over `wh` with an explicit JSON input hint. -/
def hookJsonTask : TaskPlanItem :=
  { workflowId := "wh", task := "hooked step", input := some "json" }

/-- The concrete result of running that task with no user prompt. -/
def hookChainRes : TaskChainResult :=
  match runTaskChain hookEnv [hookJsonTask] none with
  | .ok r => r
  | .error _ => fallbackChainResult

/-- A first task with a JSON input hint over a workflow id that does not
resolve in the catalog. -/
def jsonFailTasks : List TaskPlanItem :=
  [{ workflowId := "w9", task := "needs prompt", input := some "json" }]

/-- The concrete result of running that task with no user prompt. -/
def jsonFailChainRes : TaskChainResult :=
  match runTaskChain failEnv jsonFailTasks none with
  | .ok r => r
  | .error _ => fallbackChainResult

/-- Counterexample to C6 as stated. First, a chain whose first task resolves
to JSON input and whose prompt is absent does not necessarily fail: when the
task's workflow is webhook-exposed and active, input preparation is skipped
and the chain succeeds. Second, the catalog lookup for the first task is
invoked before the prompt check: with an unresolvable workflow id the chain
fails with the not-found message, not the prompt message. -/
theorem firstTaskPrompt_counterexample :
    ((mkInitResult (buildDescriptionMap hookEnv.descriptions) 0 hookJsonTask).inputType =
        .JSON ∧
      promptBlank none = true ∧
      runTaskChain hookEnv [hookJsonTask] none = .ok hookChainRes ∧
      hookChainRes.success = true) ∧
    (runTaskChain failEnv jsonFailTasks none = .ok jsonFailChainRes ∧
      jsonFailChainRes.error = some "Workflow with ID \"w9\" not found" ∧
      jsonFailChainRes.error ≠
        some "User prompt is required for the first JSON-input workflow") :=
  ⟨⟨by decide, rfl, rfl, rfl⟩, ⟨rfl, rfl, by decide⟩⟩

/-- The record of a first task that failed the prompt requirement. -/
def promptFailRecord (dm : List (String × WorkflowDescriptionMetadata))
    (t0 : TaskPlanItem) : TaskExecutionResult :=
  { mkInitResult dm 0 t0 with
    status := .failed
    error := some "User prompt is required for the first JSON-input workflow" }

/-- The exact failing chain result of a blank-prompt first JSON task on the
manual path: the workflow is loaded first (the catalog lookup must succeed and
report no webhook exposure), then input preparation throws before any
execution is started. -/
theorem firstTaskPrompt_run (env : Env) (p : Option String) (t0 : TaskPlanItem)
    (rest : List TaskPlanItem) (w : WorkflowEntity)
    (dm : List (String × WorkflowDescriptionMetadata))
    (hdm : dm = buildDescriptionMap env.descriptions)
    (hw : env.findWorkflow t0.workflowId = some w)
    (hnohook : getWebhookInfo w = none)
    (hjson : (mkInitResult dm 0 t0).inputType = .JSON)
    (hblank : promptBlank p = true) :
    runTaskChain env (t0 :: rest) p = .ok
      { success := false
        tasks := promptFailRecord dm t0 :: initResults dm 1 rest
        progress := { currentTaskIndex := (mkInitResult dm 0 t0).index
                      totalTasks := (t0 :: rest).length
                      currentWorkflowId := some (mkInitResult dm 0 t0).workflowId }
        failedTask := some (promptFailRecord dm t0)
        error := some "User prompt is required for the first JSON-input workflow"
        finalOutput := none } := by
  subst hdm
  have hload : loadWorkflow env
      ({ mkInitResult (buildDescriptionMap env.descriptions) 0 t0 with
          status := TaskExecutionStatus.running }).workflowId = .ok w := by
    show loadWorkflow env t0.workflowId = .ok w
    unfold loadWorkflow
    rw [hw]
  have hinput : ({ mkInitResult (buildDescriptionMap env.descriptions) 0 t0 with
      status := TaskExecutionStatus.running }).inputType = TaskIoType.JSON := hjson
  have hstep : execStep env p
      { mkInitResult (buildDescriptionMap env.descriptions) 0 t0 with
          status := TaskExecutionStatus.running } none =
        .error "User prompt is required for the first JSON-input workflow" := by
    unfold execStep
    simp only [hload, hnohook, hinput]
    have hjson2 : resolveIoType t0.input
        ((mapGet (buildDescriptionMap env.descriptions) t0.workflowId).bind fun d =>
          d.inputType) TaskIoType.noInput = TaskIoType.JSON := hjson
    rcases p with _ | s
    · simp [prepareInputData, mkInitResult, hjson2]
    · have hblank2 : (jsTrim s == "") = true := by simpa [promptBlank] using hblank
      simp [prepareInputData, mkInitResult, hjson2, hblank2]
  unfold runTaskChain
  have hlen : ((t0 :: rest).length == 0) = false := by simp
  simp only [hlen, Bool.false_eq_true, if_false, initResults, chainLoop, hstep]
  simp [promptFailRecord]

/-- C6 amended: for every chain whose first task resolves to JSON input and
whose user prompt is absent, empty or whitespace-only, provided the first
task's workflow loads and is not webhook-exposed (the source consults the
catalog before validating the prompt, and an active webhook workflow skips
input preparation entirely), the chain fails at task 0 with the
prompt-required error before any workflow execution is started: the result is
the same for any execution and webhook oracles, the first record is the failed
task, and all later tasks stay pending. -/
theorem firstTaskPrompt_amended (env : Env) (p : Option String) (t0 : TaskPlanItem)
    (rest : List TaskPlanItem) (w : WorkflowEntity)
    (hw : env.findWorkflow t0.workflowId = some w)
    (hnohook : getWebhookInfo w = none)
    (hjson : (mkInitResult (buildDescriptionMap env.descriptions) 0 t0).inputType = .JSON)
    (hblank : promptBlank p = true) :
    (∃ res, runTaskChain env (t0 :: rest) p = .ok res ∧ res.success = false ∧
      res.error = some "User prompt is required for the first JSON-input workflow" ∧
      res.failedTask = res.tasks[0]? ∧
      (∀ t ∈ res.tasks.drop 1, t.status = .pending)) ∧
    (∀ env2 : Env, env2.descriptions = env.descriptions →
      env2.findWorkflow = env.findWorkflow →
      runTaskChain env2 (t0 :: rest) p = runTaskChain env (t0 :: rest) p) := by
  have h1 := firstTaskPrompt_run env p t0 rest w _ rfl hw hnohook hjson hblank
  constructor
  · refine ⟨_, h1, rfl, rfl, ?_, ?_⟩
    · simp
    · intro t ht
      simp at ht
      exact initResults_status _ 1 rest t ht
  · intro env2 hdesc hfind
    have h2 := firstTaskPrompt_run env2 p t0 rest w _ rfl
      (by rw [hfind]; exact hw) hnohook (by rw [hdesc]; exact hjson) hblank
    rw [h1, h2, hdesc]

/-- A first task over the plain (non-webhook) workflow with a JSON input hint. -/
def c6wTask : TaskPlanItem :=
  { workflowId := "w1", task := "needs prompt", input := some "json" }

/-- Witness for the amended C6, at a concrete one-task chain with no prompt. -/
theorem firstTaskPrompt_amended_witness :
    (∃ res, runTaskChain okEnv [c6wTask] none = .ok res ∧ res.success = false ∧
      res.error = some "User prompt is required for the first JSON-input workflow" ∧
      res.failedTask = res.tasks[0]? ∧
      (∀ t ∈ res.tasks.drop 1, t.status = .pending)) ∧
    (∀ env2 : Env, env2.descriptions = okEnv.descriptions →
      env2.findWorkflow = okEnv.findWorkflow →
      runTaskChain env2 [c6wTask] none = runTaskChain okEnv [c6wTask] none) :=
  firstTaskPrompt_amended okEnv none c6wTask [] wfPlain (by decide) (by decide)
    (by decide) rfl

/-- The must-be-active error message for a workflow. -/
def mustBeActiveMessage (w : WorkflowEntity) : String :=
  "Workflow \"" ++ w.name ++
    "\" must be active to execute via webhook. Please activate the workflow and try again."

/-- C7 amended: for every task whose loaded workflow is webhook-runnable in
the source's sense — `getWebhookInfo` is non-null, i.e. the FIRST
webhook-type node has parameters with a non-empty configured path — and whose
workflow is inactive, the task's step throws the must-be-active error naming
the workflow (for any webhook transport oracle, so no HTTP call is consulted),
and a chain whose failed task has such a workflow aborted with that error. -/
theorem webhookInactive_amended :
    (∀ (env : Env) (p : Option String) (r : TaskExecutionResult)
        (prev : Option (List NodeExecutionData)) (w : WorkflowEntity) (info : WebhookInfo),
      env.findWorkflow r.workflowId = some w →
      getWebhookInfo w = some info →
      w.active = false →
      execStep env p r prev = .error (mustBeActiveMessage w)) ∧
    (∀ (env : Env) (tasks : List TaskPlanItem) (p : Option String) (res : TaskChainResult)
        (f : TaskExecutionResult) (w : WorkflowEntity) (info : WebhookInfo),
      runTaskChain env tasks p = .ok res →
      res.failedTask = some f →
      env.findWorkflow f.workflowId = some w →
      getWebhookInfo w = some info →
      w.active = false →
      res.success = false ∧ res.error = some (mustBeActiveMessage w)) := by
  have hstepPart : ∀ (env : Env) (p : Option String) (r : TaskExecutionResult)
      (prev : Option (List NodeExecutionData)) (w : WorkflowEntity) (info : WebhookInfo),
      env.findWorkflow r.workflowId = some w →
      getWebhookInfo w = some info →
      w.active = false →
      execStep env p r prev = .error (mustBeActiveMessage w) := by
    intro env p r prev w info hw hhook hact
    have hload : loadWorkflow env r.workflowId = .ok w := by
      unfold loadWorkflow
      rw [hw]
    unfold execStep
    simp only [hload, hhook]
    simp [hact, mustBeActiveMessage]
  refine ⟨hstepPart, ?_⟩
  intro env tasks p res f w info hrun hft hw hhook hact
  rcases hsucc : res.success with _ | _
  · unfold runTaskChain at hrun
    split at hrun
    · exact Except.noConfusion hrun
    · injection hrun with hres
      obtain ⟨k, f2, rr, prev, msg, _, _, _, hft2, herr, hf2, hstepErr, _⟩ :=
        chainLoop_failure env p tasks.length _ [] none none res hres
          (by intro x hx; cases hx) (initResults_status _ 0 tasks) hsucc
      have hfEq : f2 = f := by
        rw [hft] at hft2
        injection hft2 with h
        exact h.symm
      have hwid : rr.workflowId = f.workflowId := by
        rw [← hfEq, hf2]
      have := hstepPart env p { rr with status := .running } prev w info
        (by show env.findWorkflow rr.workflowId = some w; rw [hwid]; exact hw) hhook hact
      rw [this] at hstepErr
      injection hstepErr with hmsg
      exact ⟨rfl, by rw [herr, hmsg]⟩
  · unfold runTaskChain at hrun
    split at hrun
    · exact Except.noConfusion hrun
    · injection hrun with hres
      have := (chainLoop_success env p tasks.length _ [] none none
        (by intro x hx; cases hx) (by rw [hres]; exact hsucc))
      rw [hres] at this
      rw [this.2.1] at hft
      exact Option.noConfusion hft

/-- An inactive workflow whose first webhook node has a configured path. -/
def wfHookInactive : WorkflowEntity :=
  { id := "wi", name := "Sleeper", active := false,
    nodes := some [{ name := "Hook", type := "n8n-nodes-base.webhook",
                     parameters := some { path := some "p" } }] }

/-- Environment in which `wi` resolves to the inactive webhook workflow. -/
def envInactive : Env :=
  { descriptions := []
    findWorkflow := fun id => if id == "wi" then some wfHookInactive else none
    manualExec := fun _ _ => .startFailure "manual path not used"
    webhookFetch := fun _ _ => .jsonResponse (some [("ok", Json.num 1)])
    getDataLastExecutedNodeData := fun _ => none }

/-- A one-task plan over the inactive webhook workflow. -/
def inactiveTasks : List TaskPlanItem := [{ workflowId := "wi", task := "hooked step" }]

/-- The concrete result of that chain. -/
def inactiveChainRes : TaskChainResult :=
  match runTaskChain envInactive inactiveTasks none with
  | .ok r => r
  | .error _ => fallbackChainResult

/-- The failed record of that chain. -/
def inactiveFailedRec : TaskExecutionResult :=
  match inactiveChainRes.failedTask with
  | some f => f
  | none =>
    { index := 0, workflowId := "wi", taskSummary := "hooked step", status := .failed,
      inputType := .noInput, outputType := .JSON }

/-- A running record for the step-level part of the C7 witness. -/
def inactiveStepRec : TaskExecutionResult :=
  { index := 0, workflowId := "wi", taskSummary := "hooked step", status := .running,
    inputType := .noInput, outputType := .JSON }

/-- Witness for the amended C7, at a concrete inactive webhook workflow. -/
theorem webhookInactive_amended_witness :
    execStep envInactive none inactiveStepRec none =
      .error (mustBeActiveMessage wfHookInactive) ∧
    (runTaskChain envInactive inactiveTasks none = .ok inactiveChainRes ∧
      inactiveChainRes.failedTask = some inactiveFailedRec ∧
      inactiveChainRes.success = false ∧
      inactiveChainRes.error = some (mustBeActiveMessage wfHookInactive)) :=
  ⟨webhookInactive_amended.1 envInactive none inactiveStepRec none wfHookInactive
      { path := "p", method := "GET" } (by decide) (by decide) rfl,
   ⟨rfl, rfl,
    (webhookInactive_amended.2 envInactive inactiveTasks none inactiveChainRes
      inactiveFailedRec wfHookInactive { path := "p", method := "GET" }
      rfl rfl (by decide) (by decide) rfl).1,
    (webhookInactive_amended.2 envInactive inactiveTasks none inactiveChainRes
      inactiveFailedRec wfHookInactive { path := "p", method := "GET" }
      rfl rfl (by decide) (by decide) rfl).2⟩⟩

/-- A workflow with two webhook nodes: the first has no configured path, the
second has one. -/
def wfTwoHooks : WorkflowEntity :=
  { id := "w7", name := "TwoHooks", active := false,
    nodes := some [{ name := "A", type := "n8n-nodes-base.webhook", parameters := some {} },
                   { name := "B", type := "n8n-nodes-base.webhook",
                     parameters := some { path := some "p" } }] }

/-- A completed run with no recorded node data. -/
def runEmpty : IRun := { data := { resultData := {} } }

/-- Environment in which `w7` resolves to `wfTwoHooks` and manual executions
complete. -/
def env7 : Env :=
  { descriptions := []
    findWorkflow := fun id => if id == "w7" then some wfTwoHooks else none
    manualExec := fun _ _ => .started "e7" (.completed runEmpty)
    webhookFetch := fun _ _ => .throws "no fetch expected"
    getDataLastExecutedNodeData := fun _ => none }

/-- A one-task plan over `w7`. -/
def c7Tasks : List TaskPlanItem := [{ workflowId := "w7", task := "ambiguous hooks" }]

/-- The concrete result of that chain. -/
def c7ChainRes : TaskChainResult :=
  match runTaskChain env7 c7Tasks none with
  | .ok r => r
  | .error _ => fallbackChainResult

/-- Counterexample to C7 as stated: `wfTwoHooks` contains a webhook node with
a configured path and is inactive, yet the chain over it succeeds with no
error — the source consults only the FIRST webhook-type node, whose missing
path makes `getWebhookInfo` return null, so the task runs on the manual path
and the must-be-active check is never reached. -/
theorem webhookInactive_counterexample :
    (wfTwoHooks.nodes.getD []).any nodeHasConfiguredPath = true ∧
    wfTwoHooks.active = false ∧
    runTaskChain env7 c7Tasks none = .ok c7ChainRes ∧
    c7ChainRes.success = true ∧
    c7ChainRes.error = none :=
  ⟨by decide, rfl, rfl, rfl, rfl⟩

/-- C8: for a non-first JSON-input task with a non-empty previous output, the
prepared seed is exactly the previous output's primary JSON payload (the
`json` field of the first item that has one), wrapped as a single execution
item; and when no item of the previous output has a `json` field, input
preparation throws the fatal contract error instead of executing. -/
theorem prepareInputData_json_claim :
    (∀ (p : Option String) (prev : List NodeExecutionData) (fi : NodeExecutionData)
        (payload : DataObject),
      prev ≠ [] →
      prev.find? (fun item => item.json.isSome) = some fi →
      fi.json = some payload →
      prepareInputData .JSON false p (some prev) =
        .ok (some [{ json := some payload }], some payload)) ∧
    (∀ (p : Option String) (prev : List NodeExecutionData),
      prev ≠ [] →
      (∀ item ∈ prev, item.json = none) →
      prepareInputData .JSON false p (some prev) =
        .error "Previous task did not return JSON data to pass forward") := by
  constructor
  · intro p prev fi payload hne hfind hjson
    rcases prev with _ | ⟨a, l⟩
    · exact absurd rfl hne
    · simp [prepareInputData, extractPrimaryJson, hfind, hjson]
  · intro p prev hne hall
    rcases prev with _ | ⟨a, l⟩
    · exact absurd rfl hne
    · have hfind : (a :: l).find? (fun item => item.json.isSome) = none := by
        rw [List.find?_eq_none]
        intro x hx
        simp [hall x hx]
      simp [prepareInputData, extractPrimaryJson, hfind]

/-- Witness for C8: the spec's scenario — the predecessor returned
`{ result: "A" }` and the seed equals exactly that payload — plus the
no-JSON-item error case. -/
theorem prepareInputData_json_claim_witness :
    prepareInputData .JSON false none
        (some [{ json := some [("result", Json.str "A")] }]) =
      .ok (some [{ json := some [("result", Json.str "A")] }],
           some [("result", Json.str "A")]) ∧
    prepareInputData .JSON false none
        (some [{ binary := some [("file", Json.str "png-bytes")] }]) =
      .error "Previous task did not return JSON data to pass forward" :=
  ⟨prepareInputData_json_claim.1 none [{ json := some [("result", Json.str "A")] }]
      { json := some [("result", Json.str "A")] } [("result", Json.str "A")]
      (by decide) rfl rfl,
   prepareInputData_json_claim.2 none [{ binary := some [("file", Json.str "png-bytes")] }]
      (by decide) (by decide)⟩

/-- C9 amended: for every task whose loaded workflow is webhook-runnable in
the source's sense (`getWebhookInfo` non-null: the FIRST webhook-type node has
a configured path) and active, the step's outcome is independent of the user
prompt and of the threaded previous output (input preparation is skipped and
the HTTP call carries no body — the webhook oracle is consulted with URL and
method only); on success the record's `inputPayload` is untouched and its
execution id is the webhook marker; and any failure of such a step originates
from the HTTP call itself (a thrown fetch error or a non-2xx status), never
from the JSON/png input data contracts. -/
theorem webhookNoBody_amended (env : Env) (p : Option String) (r : TaskExecutionResult)
    (prev : Option (List NodeExecutionData)) (w : WorkflowEntity) (info : WebhookInfo)
    (hw : env.findWorkflow r.workflowId = some w)
    (hhook : getWebhookInfo w = some info)
    (hact : w.active = true) :
    (∀ (p2 : Option String) (prev2 : Option (List NodeExecutionData)),
      execStep env p2 r prev2 = execStep env p r prev) ∧
    (∀ out, execStep env p r prev = .ok out →
      out.1.inputPayload = r.inputPayload ∧ out.1.executionId = some "webhook-execution") ∧
    (∀ msg, execStep env p r prev = .error msg →
      env.webhookFetch (webhookUrl env info) info.method = .throws msg ∨
      ∃ status statusText,
        env.webhookFetch (webhookUrl env info) info.method = .httpError status statusText ∧
        msg = "Webhook returned " ++ toString status ++ ": " ++ statusText) := by
  have hload : loadWorkflow env r.workflowId = .ok w := by
    unfold loadWorkflow
    rw [hw]
  refine ⟨?_, ?_, ?_⟩
  · intro p2 prev2
    unfold execStep
    simp only [hload, hhook, hact, Bool.not_true, Bool.false_eq_true, if_false]
  · intro out hout
    unfold execStep at hout
    simp only [hload, hhook, hact, Bool.not_true, Bool.false_eq_true, if_false] at hout
    rcases hfetch : executeViaWebhook env info with msg | wres
    · rw [hfetch] at hout
      exact Except.noConfusion hout
    · rw [hfetch] at hout
      injection hout with h
      subst h
      exact ⟨rfl, rfl⟩
  · intro msg hmsg
    unfold execStep at hmsg
    simp only [hload, hhook, hact, Bool.not_true, Bool.false_eq_true, if_false] at hmsg
    unfold executeViaWebhook at hmsg
    rcases hfetch : env.webhookFetch (webhookUrl env info) info.method with m | ⟨s, st⟩ | b | t
    all_goals rw [hfetch] at hmsg
    all_goals simp at hmsg
    · left
      rw [hmsg]
    · right
      exact ⟨s, st, rfl, hmsg.symm⟩

/-- A running record over the active webhook workflow `wh`. -/
def c9wRec : TaskExecutionResult :=
  { index := 0, workflowId := "wh", taskSummary := "hooked step", status := .running,
    inputType := .JSON, outputType := .JSON }

/-- A non-empty previous output used to show independence. -/
def c9wPrev : Option (List NodeExecutionData) :=
  some [{ json := some [("earlier", Json.num 7)] }]

/-- The concrete outcome of the webhook step. -/
def c9wOut :
    TaskExecutionResult × Option (List NodeExecutionData) × Option DataObject :=
  match execStep hookEnv none c9wRec none with
  | .ok o => o
  | .error _ => (c9wRec, none, none)

/-- Witness for the amended C9: at the concrete active webhook workflow, the
step ignores prompt and previous output, leaves `inputPayload` empty and tags
the webhook execution id. -/
theorem webhookNoBody_amended_witness :
    execStep hookEnv (some "ignored prompt") c9wRec c9wPrev =
      execStep hookEnv none c9wRec none ∧
    execStep hookEnv none c9wRec none = .ok c9wOut ∧
    c9wOut.1.inputPayload = c9wRec.inputPayload ∧
    c9wOut.1.executionId = some "webhook-execution" :=
  ⟨(webhookNoBody_amended hookEnv none c9wRec none wfHookActive
      { path := "p", method := "GET" } (by decide) (by decide) rfl).1
      (some "ignored prompt") c9wPrev,
   rfl,
   ((webhookNoBody_amended hookEnv none c9wRec none wfHookActive
      { path := "p", method := "GET" } (by decide) (by decide) rfl).2.1 c9wOut rfl).1,
   ((webhookNoBody_amended hookEnv none c9wRec none wfHookActive
      { path := "p", method := "GET" } (by decide) (by decide) rfl).2.1 c9wOut rfl).2⟩

/-- The two-webhook workflow again, but active. -/
def wfTwoHooksActive : WorkflowEntity := { wfTwoHooks with active := true }

/-- Environment in which `w7` resolves to the active two-webhook workflow. -/
def env9 : Env :=
  { descriptions := []
    findWorkflow := fun id => if id == "w7" then some wfTwoHooksActive else none
    manualExec := fun _ _ => .started "e9" (.completed runEmpty)
    webhookFetch := fun _ _ => .jsonResponse (some [("ok", Json.num 1)])
    getDataLastExecutedNodeData := fun _ => none }

/-- A first task over it that resolves to JSON input, with no prompt. -/
def c9cTasks : List TaskPlanItem :=
  [{ workflowId := "w7", task := "ambiguous hooks", input := some "json" }]

/-- The concrete result of that chain. -/
def c9cChainRes : TaskChainResult :=
  match runTaskChain env9 c9cTasks none with
  | .ok r => r
  | .error _ => fallbackChainResult

/-- Counterexample to C9 as stated: `wfTwoHooksActive` contains a webhook node
with a configured path and is active, yet the task is NOT executed via HTTP
and input preparation is NOT skipped — the source consults only the FIRST
webhook-type node, whose missing path sends the task down the manual path,
where the JSON input data contract raises the prompt-required error. -/
theorem webhookNoBody_counterexample :
    (wfTwoHooksActive.nodes.getD []).any nodeHasConfiguredPath = true ∧
    wfTwoHooksActive.active = true ∧
    runTaskChain env9 c9cTasks none = .ok c9cChainRes ∧
    c9cChainRes.success = false ∧
    c9cChainRes.error = some "User prompt is required for the first JSON-input workflow" :=
  ⟨by decide, rfl, rfl, rfl, rfl⟩

/-- C10 amended: on the manual execution path (no webhook exposure), a
succeeded task whose resolved output type is not `noOutput` but whose run
yielded no extractable output leaves the threaded `previousOutputData`
unchanged, so a later JSON-input task is seeded with the output of an earlier
task rather than failing. (On the webhook path the source instead resets the
threaded output to `undefined` when the webhook body parses to null — see the
counterexample.) -/
theorem prevOutput_retention_amended (env : Env) (p : Option String)
    (r : TaskExecutionResult) (prev : Option (List NodeExecutionData))
    (w : WorkflowEntity)
    (out : TaskExecutionResult × Option (List NodeExecutionData) × Option DataObject)
    (hw : env.findWorkflow r.workflowId = some w)
    (hnohook : getWebhookInfo w = none)
    (hno : r.outputType ≠ .noOutput)
    (hstep : execStep env p r prev = .ok out)
    (hraw : out.1.rawOutput = none) :
    out.2.1 = prev := by
  have hload : loadWorkflow env r.workflowId = .ok w := by
    unfold loadWorkflow
    rw [hw]
  unfold execStep at hstep
  simp only [hload, hnohook] at hstep
  rcases hprep : prepareInputData r.inputType (r.index == 0) p prev with msg | pair
  · rw [hprep] at hstep
    exact Except.noConfusion hstep
  · rcases pair with ⟨inputData, inputPresentation⟩
    rw [hprep] at hstep
    dsimp only at hstep
    rcases hexec : executeWorkflowAndWait env r.index w inputData with msg | outcome
    · rw [hexec] at hstep
      exact Except.noConfusion hstep
    · rw [hexec] at hstep
      injection hstep with h
      subst h
      have hbeq : (r.outputType == TaskIoType.noOutput) = false := by
        simp only [beq_eq_false_iff_ne, ne_eq]
        exact hno
      simp only at hraw
      simp [hbeq, hraw, Option.orElse]

/-- A record over the manual-path workflow `w7`, with JSON output type, fed a
previous output. -/
def c10wRec : TaskExecutionResult :=
  { index := 1, workflowId := "w7", taskSummary := "quiet middle", status := .running,
    inputType := .noInput, outputType := .JSON }

/-- The previous output threaded into the step. -/
def c10wPrev : Option (List NodeExecutionData) :=
  some [{ json := some [("earlier", Json.num 7)] }]

/-- The concrete outcome of the no-output manual step. -/
def c10wOut :
    TaskExecutionResult × Option (List NodeExecutionData) × Option DataObject :=
  match execStep env7 none c10wRec c10wPrev with
  | .ok o => o
  | .error _ => (c10wRec, none, none)

/-- Witness for the amended C10: a concrete manual-path step whose run
produced nothing extractable retains the earlier previous output. -/
theorem prevOutput_retention_amended_witness :
    execStep env7 none c10wRec c10wPrev = .ok c10wOut ∧
    c10wOut.1.status = .succeeded ∧
    c10wOut.1.rawOutput = none ∧
    c10wOut.2.1 = c10wPrev :=
  ⟨rfl, rfl, rfl,
   prevOutput_retention_amended env7 none c10wRec c10wPrev wfTwoHooks c10wOut
     (by decide) (by decide) (by decide) rfl rfl⟩

/-- Environment with an active webhook workflow whose webhook body parses to
JSON null. -/
def env10 : Env :=
  { descriptions := []
    findWorkflow := fun id => if id == "wh" then some wfHookActive else none
    manualExec := fun _ _ => .startFailure "manual path not used"
    webhookFetch := fun _ _ => .jsonResponse none
    getDataLastExecutedNodeData := fun _ => none }

/-- A running record over that workflow with JSON output type. -/
def r10 : TaskExecutionResult :=
  { index := 1, workflowId := "wh", taskSummary := "null responder", status := .running,
    inputType := .noInput, outputType := .JSON }

/-- The previous output threaded into the step. -/
def prev10 : Option (List NodeExecutionData) :=
  some [{ json := some [("earlier", Json.num 7)] }]

/-- The concrete outcome of the null-body webhook step. -/
def c10Out :
    TaskExecutionResult × Option (List NodeExecutionData) × Option DataObject :=
  match execStep env10 none r10 prev10 with
  | .ok o => o
  | .error _ => (r10, none, none)

/-- Counterexample to C10 as stated: a webhook-executed task that succeeds
with output type JSON and no extractable output (the webhook body parsed to
null) RESETS the threaded `previousOutputData` to `undefined` instead of
retaining its earlier value — the webhook branch threads
`webhookResult ? [...] : undefined` without falling back to the previous
output. -/
theorem prevOutput_retention_counterexample :
    execStep env10 none r10 prev10 = .ok c10Out ∧
    c10Out.1.status = .succeeded ∧
    r10.outputType ≠ .noOutput ∧
    c10Out.1.rawOutput = none ∧
    c10Out.1.outputPayload = none ∧
    prev10.isSome = true ∧
    c10Out.2.1 = none ∧
    c10Out.2.1 ≠ prev10 :=
  ⟨rfl, rfl, by decide, rfl, rfl, rfl, rfl, by decide⟩

end TaskChain
